import Mathlib

/-!
Shallow embedding of the ovs-unixctl crate (src/error.rs, src/unix.rs,
src/jsonrpc.rs, src/ovs.rs) and proofs of its specified properties.

Rust machine integers are modelled as Nat (the usize id counter never
wraps in the specified scenarios); Duration is modelled as a Nat count of
milliseconds; filesystem and socket effects are passed in explicitly as
function-valued environments; the outcome of one step of serde_json's
stream deserializer is passed to recv as an explicit
Option (Except JsonError R), where none models the stream producing its
end condition before any value (the iterator returning None).
-/

namespace Ovs

/-- An I/O error (std::io::Error), abstracted to its message. -/
structure IoErr where
  msg : String
deriving DecidableEq

/-- serde_json::error::Category. -/
inductive JsonCategory where
  | ioCat
  | synCat
  | dataCat
  | eofCat
deriving DecidableEq

/-- A serde_json::Error: its classification plus the underlying I/O
error that error.into() would extract for the Io category. -/
structure JsonError where
  category : JsonCategory
  ioCause : IoErr
deriving DecidableEq

/-- The crate's unified error type (src/error.rs, enum Error). -/
inductive Error where
  | Protocol (detail : String)
  | Serialize (e : JsonError)
  | Socket (e : IoErr)
  | Timeout
  | Command (cmd : String) (params : String) (error : String)
  | SocketNotFound (path : String)
  | OvsNotRunning
  | OvsInvalidResponse (cmd : String) (response : String) (error : String)
deriving DecidableEq

/-- impl From of serde_json::Error for Error (src/error.rs lines 40-49):
Io-classified decode errors become Socket, everything else Serialize. -/
def Error.fromJsonError (e : JsonError) : Error :=
  match e.category with
  | .ioCat => .Socket e.ioCause
  | _ => .Serialize e

/-- A JSON-RPC request (src/jsonrpc.rs, struct Request). -/
structure Request where
  method : String
  params : List String
  id : Nat
deriving DecidableEq

/-- A JSON-RPC response (src/jsonrpc.rs, struct Response). -/
structure Response (R : Type) where
  result : Option R
  error : Option String
  id : Option Nat

/-- The connected Unix socket stream (src/unix.rs, struct UnixJsonStream):
the socket is abstracted to the configuration it was opened with. -/
structure UnixJsonStream where
  path : String
  timeout : Option Nat

/-- UnixJsonStream::send (src/unix.rs lines 26-28): serde_json::to_writer
either succeeds or yields a serde_json::Error which the question-mark
operator converts through Error.fromJsonError. -/
def UnixJsonStream.send (s : UnixJsonStream) (outcome : Option JsonError) :
    Except Error Unit :=
  match s, outcome with
  | _, some e => .error (Error.fromJsonError e)
  | _, none => .ok ()

/-- UnixJsonStream::recv (src/unix.rs lines 30-39): one step of the stream
deserializer either yields no value before the end condition (None, mapped
to Timeout by ok_or_else), or a decode result whose error is converted
through Error.fromJsonError by the question-mark operator. -/
def UnixJsonStream.recv {R : Type} (s : UnixJsonStream)
    (next : Option (Except JsonError R)) : Except Error R :=
  match s, next with
  | _, none => .error Error.Timeout
  | _, some (.error e) => .error (Error.fromJsonError e)
  | _, some (.ok r) => .ok r

/-- The transport client (src/unix.rs, struct UnixJsonStreamClient). -/
structure UnixJsonStreamClient where
  path : String
  timeout : Option Nat

/-- UnixJsonStreamClient::new (src/unix.rs lines 52-57). -/
def UnixJsonStreamClient.new (path : String) : UnixJsonStreamClient :=
  { path := path, timeout := none }

/-- UnixJsonStreamClient::timeout (src/unix.rs lines 60-63); named
setTimeout because Lean reserves the field projection name. -/
def UnixJsonStreamClient.setTimeout (sc : UnixJsonStreamClient) (t : Nat) :
    UnixJsonStreamClient :=
  { sc with timeout := some t }

/-- The operating-system environment for connect: the outcome of
UnixStream::connect at each path (none = success). -/
structure UnixOs where
  connectRes : String → Option IoErr

/-- UnixJsonStreamClient::connect (src/unix.rs lines 69-75): connect to the
path, configure both timeouts from self.timeout, return the stream. -/
def UnixJsonStreamClient.connect (os : UnixOs) (sc : UnixJsonStreamClient) :
    Except Error UnixJsonStream :=
  match os.connectRes sc.path with
  | some e => .error (.Socket e)
  | none => .ok { path := sc.path, timeout := sc.timeout }

/-- The JSON-RPC client (src/jsonrpc.rs, struct Client): the connected
stream and the AtomicUsize id counter. -/
structure Client where
  stream : UnixJsonStream
  last_id : Nat

/-- Client::new (src/jsonrpc.rs lines 64-70): connect the transport and
start the id counter at 1. -/
def Client.new (os : UnixOs) (stream_client : UnixJsonStreamClient) :
    Except Error Client :=
  match stream_client.connect os with
  | .error e => .error e
  | .ok stream => .ok { stream := stream, last_id := 1 }

/-- Client::unix (src/jsonrpc.rs lines 73-82): build a Unix transport
client, apply the timeout when one is given, and connect. -/
def Client.unix (os : UnixOs) (sock_path : String) (timeout : Option Nat) :
    Except Error Client :=
  let stream_client := UnixJsonStreamClient.new sock_path
  let stream_client :=
    match timeout with
    | some t => stream_client.setTimeout t
    | none => stream_client
  Client.new os stream_client

/-- Client::build_request (src/jsonrpc.rs lines 87-97): the request takes
the current counter value and the counter is incremented (fetch_add). -/
def Client.build_request (c : Client) (method : String) (params : List String) :
    Request × Client :=
  ({ method := method, params := params, id := c.last_id },
   { c with last_id := c.last_id + 1 })

/-- Client::send_request (src/jsonrpc.rs lines 100-120): send, receive,
then verify the response id is present and equals the request id. -/
def Client.send_request {R : Type} (c : Client) (sendOut : Option JsonError)
    (recvOut : Option (Except JsonError (Response R))) (request : Request) :
    Except Error (Response R) :=
  let req_id := request.id
  match c.stream.send sendOut with
  | .error e => .error e
  | .ok _ =>
    match c.stream.recv recvOut with
    | .error e => .error e
    | .ok res =>
      match res.id with
      | none => .error (.Protocol "id not found in response")
      | some i =>
        if i ≠ req_id then
          .error (.Protocol "request and response ids do not match")
        else
          .ok res

/-- Client::call_params (src/jsonrpc.rs lines 123-142): build a request,
send it, and turn a present error field into Error.Command with the
parameters joined by a comma and a space. -/
def Client.call_params {R : Type} (c : Client) (sendOut : Option JsonError)
    (recvOut : Option (Except JsonError (Response R))) (method : String)
    (params : List String) : Except Error (Response R) × Client :=
  let rc := c.build_request method params
  let result :=
    match rc.2.send_request sendOut recvOut rc.1 with
    | .error e => .error e
    | .ok response =>
      match response.error with
      | some error => .error (.Command method (String.intercalate ", " params) error)
      | none => .ok response
  (result, rc.2)

/-- Client::call (src/jsonrpc.rs lines 145-156): like call_params with an
empty parameter slice and String::default() as the joined parameters. -/
def Client.call {R : Type} (c : Client) (sendOut : Option JsonError)
    (recvOut : Option (Except JsonError (Response R))) (method : String) :
    Except Error (Response R) × Client :=
  let rc := c.build_request method []
  let result :=
    match rc.2.send_request sendOut recvOut rc.1 with
    | .error e => .error e
    | .ok response =>
      match response.error with
      | some error => .error (.Command method "" error)
      | none => .ok response
  (result, rc.2)

/-! String helpers embedding the Rust std string operations that ovs.rs
uses, written over List Char so they evaluate inside the kernel. -/

/-- Splits off the longest run of characters before the first one
satisfying p; the second component is the remainder after that character
when one was found. Supports split_once and splitn. -/
def takeUntil (p : Char → Bool) : List Char → List Char × Option (List Char)
  | [] => ([], none)
  | c :: cs =>
    if p c then ([], some cs)
    else
      let r := takeUntil p cs
      (c :: r.1, r.2)

/-- str::splitn(n, pat) on a character predicate: at most n fragments, the
last fragment holding the unsplit remainder. -/
def splitnList : Nat → (Char → Bool) → List Char → List (List Char)
  | 0, _, _ => []
  | 1, _, s => [s]
  | Nat.succ (Nat.succ m), p, s =>
    match takeUntil p s with
    | (tok, none) => [tok]
    | (tok, some rest) => tok :: splitnList (Nat.succ m) p rest

/-- char::is_whitespace restricted to the ASCII whitespace the inputs use. -/
def isWs (c : Char) : Bool := c == ' ' || c == '\t' || c == '\n' || c == '\x0d'

/-- str::trim as a List Char function. -/
def trimList (s : List Char) : List Char :=
  ((s.dropWhile isWs).reverse.dropWhile isWs).reverse

/-- str::trim on String. -/
def rustTrim (s : String) : String := String.mk (trimList s.data)

/-- str::split_once(char::is_whitespace): the pieces before and after the
first whitespace character, or none when there is no whitespace. -/
def splitOnceWs (s : List Char) : Option (List Char × List Char) :=
  match takeUntil isWs s with
  | (_, none) => none
  | (pre, some post) => some (pre, post)

/-- Splits on every newline character (str::lines before the trailing-line
and carriage-return fixups); acc holds the current fragment reversed. -/
def splitNl (acc : List Char) : List Char → List (List Char)
  | [] => [acc.reverse]
  | c :: cs => if c = '\n' then acc.reverse :: splitNl [] cs else splitNl (c :: acc) cs

/-- str::lines: split on newline, drop a trailing empty fragment, strip a
trailing carriage return from each line. -/
def rustLines (s : List Char) : List (List Char) :=
  let parts := splitNl [] s
  let parts := if parts.getLast? = some [] then parts.dropLast else parts
  parts.map (fun l => if l.getLast? = some '\x0d' then l.dropLast else l)

/-- str::parse::\<u32\> with the Display texts of ParseIntError: optional
leading plus sign, then decimal digits only, value below 2^32. -/
def parseU32 (s : String) : Except String Nat :=
  match s.data with
  | [] => .error "cannot parse integer from empty string"
  | cs =>
    let ds := match cs with
      | '+' :: rest => rest
      | _ => cs
    if ds = [] then .error "invalid digit found in string"
    else if ds.all Char.isDigit then
      let v := ds.foldl (fun a c => a * 10 + (c.toNat - 48)) 0
      if v < 2 ^ 32 then .ok v else .error "number too large to fit in target type"
    else .error "invalid digit found in string"

/-! The OVS control facade (src/ovs.rs). -/

/-- The filesystem environment discovery reads: fs::read_to_string
outcomes (none = any read failure) and Path::exists. -/
structure FileSys where
  readToString : String → Option String
  pathExists : String → Bool

/-- Path::join for a relative file name. -/
def pathJoin (dir file : String) : String :=
  if dir = "" then file
  else if dir.data.getLast? = some '/' then dir ++ file
  else dir ++ "/" ++ file

/-- OvsUnixCtl::find_socket_at (src/ovs.rs lines 60-76): read and trim
{rundir}/{target}.pid, then require {rundir}/{target}.{pid}.ctl to exist. -/
def find_socket_at (fs : FileSys) (target : String) (rundir : String) :
    Except Error String :=
  let pidfile_path := pathJoin rundir (target ++ ".pid")
  match fs.readToString pidfile_path with
  | none => .error .OvsNotRunning
  | some pid_raw =>
    let pid_str := rustTrim pid_raw
    if pid_str = "" then .error .OvsNotRunning
    else
      let sock_path := pathJoin rundir (target ++ "." ++ pid_str ++ ".ctl")
      if fs.pathExists sock_path = false then .error (.SocketNotFound sock_path)
      else .ok sock_path

/-- Duration::from_secs in milliseconds. -/
def durationFromSecs (n : Nat) : Nat := n * 1000

/-- OvsUnixCtl::unix (src/ovs.rs lines 44-58): fail SocketNotFound when
the path does not exist, else connect with timeout.or(1 second). -/
def OvsUnixCtl.unix (fs : FileSys) (os : UnixOs) (path : String)
    (timeout : Option Nat) : Except Error Client :=
  if fs.pathExists path = false then .error (.SocketNotFound path)
  else
    Client.unix os path
      (match timeout with
       | some t => some t
       | none => some (durationFromSecs 1))

/-- The result-processing half of OvsUnixCtl::list_commands (src/ovs.rs
lines 88-104), as a function of response.result: skip the header line,
split each remaining line once at whitespace, trim both halves. -/
def listCommandsOfResult (result : Option String) :
    Except Error (List (String × String)) :=
  match result with
  | none => .error (.OvsInvalidResponse "list-commands" "" "should not be empty")
  | some s =>
    .ok (((rustLines s.data).drop 1).map (fun l =>
      let p :=
        match splitOnceWs (trimList l) with
        | none => (l, [])
        | some pr => pr
      (String.mk (trimList p.1), String.mk (trimList p.2))))

/-- OvsUnixCtl::list_commands: the call composed with result processing. -/
def OvsUnixCtl.list_commands (c : Client) (sendOut : Option JsonError)
    (recvOut : Option (Except JsonError (Response String))) :
    Except Error (List (String × String)) × Client :=
  let rc := c.call sendOut recvOut "list-commands"
  (match rc.1 with
   | .error e => .error e
   | .ok response => listCommandsOfResult response.result, rc.2)

/-- The fixed prefix version() strips (src/ovs.rs line 118). -/
def versionFixedPre : List Char := "ovs-vswitchd (Open vSwitch) ".data

/-- str::strip of a literal leading pattern, as an Option. -/
def dropPre : List Char → List Char → Option (List Char)
  | [], s => some s
  | _ :: _, [] => none
  | p :: ps, c :: cs => if p = c then dropPre ps cs else none

/-- One component put through parse::\<u32\>, its failure wrapped in the
OvsInvalidResponse built by the InvalidResponse helper (src/ovs.rs). -/
def parseComponent (responseText comp : String) : Except Error Nat :=
  match parseU32 comp with
  | .ok v => .ok v
  | .error e =>
    .error (.OvsInvalidResponse "version" responseText
      ("can't parse " ++ comp ++ ": " ++ e))

/-- The three numeric components and the patch text of a version reply. -/
def parse3 (responseText x y z patch : String) :
    Except Error (Nat × Nat × Nat × String) :=
  match parseComponent responseText x with
  | .error e => .error e
  | .ok a =>
    match parseComponent responseText y with
    | .error e => .error e
    | .ok b =>
      match parseComponent responseText z with
      | .error e => .error e
      | .ok c => .ok (a, b, c, patch)

/-- The result-processing half of OvsUnixCtl::version (src/ovs.rs lines
107-149), as a function of response.result: trim, strip the fixed prefix,
splitn(4, ['.', '-']), then parse by token count. -/
def versionOfResult (result : Option String) :
    Except Error (Nat × Nat × Nat × String) :=
  let responseText := result.getD ""
  match result with
  | none => .error (.OvsInvalidResponse "version" responseText "should not be empty")
  | some s =>
    match dropPre versionFixedPre (trimList s.data) with
    | none => .error (.OvsInvalidResponse "version" responseText "invalid prefix")
    | some rest =>
      match (splitnList 4 (fun c => c == '.' || c == '-') rest).map String.mk with
      | [x, y, z] => parse3 responseText x y z ""
      | [x, y, z, patch] => parse3 responseText x y z patch
      | _ => .error (.OvsInvalidResponse "version" responseText "parse error")

/-- OvsUnixCtl::version: the call composed with result processing. -/
def OvsUnixCtl.version (c : Client) (sendOut : Option JsonError)
    (recvOut : Option (Except JsonError (Response String))) :
    Except Error (Nat × Nat × Nat × String) × Client :=
  let rc := c.call sendOut recvOut "version"
  (match rc.1 with
   | .error e => .error e
   | .ok response => versionOfResult response.result, rc.2)

/-! A driver for sequences of calls on one Client: each call's environment
holds the method, the parameters, which entry point is used, and the
transport outcomes for that call. -/

/-- The environment of one call in a sequence. -/
structure CallEnv where
  method : String
  params : List String
  useCall : Bool
  sendOut : Option JsonError
  recvOut : Option (Except JsonError (Response String))

/-- Performs one call through call or call_params as the environment
selects. -/
def doCall (c : Client) (e : CallEnv) : Except Error (Response String) × Client :=
  if e.useCall then c.call e.sendOut e.recvOut e.method
  else c.call_params e.sendOut e.recvOut e.method e.params

/-- The request the selected entry point builds for this call (call uses
an empty parameter slice). -/
def builtReq (c : Client) (e : CallEnv) : Request :=
  if e.useCall then (c.build_request e.method []).1
  else (c.build_request e.method e.params).1

/-- Runs a sequence of calls, recording the request built for each. -/
def runCalls : Client → List CallEnv → List Request
  | _, [] => []
  | c, e :: es => builtReq c e :: runCalls (doCall c e).2 es

/-! Concrete environments used by the witnesses. -/

/-- An operating system in which every connect succeeds. -/
def osAllOk : UnixOs := ⟨fun _ => none⟩

/-- A benign call environment for the id-sequence witness. -/
def envPing : CallEnv := ⟨"ping", [], false, none, none⟩

/-- A filesystem with no readable files and no existing paths. -/
def fsEmpty : FileSys := ⟨fun _ => none, fun _ => false⟩

/-- A filesystem with only the ovs-vswitchd pid file under /run. -/
def fsPidOnly : FileSys :=
  ⟨fun p => if p = "/run/ovs-vswitchd.pid" then some " 12 " else none,
   fun _ => false⟩

/-- A filesystem whose pid file trims to the empty string. -/
def fsPidBlank : FileSys :=
  ⟨fun p => if p = "/run/ovs-vswitchd.pid" then some "  " else none,
   fun _ => false⟩

/-- A filesystem with the pid file and the matching control socket. -/
def fsPidSock : FileSys :=
  ⟨fun p => if p = "/run/ovs-vswitchd.pid" then some " 12 " else none,
   fun p => p == "/run/ovs-vswitchd.12.ctl"⟩

/-- A filesystem in which every path exists. -/
def fsAllExist : FileSys := ⟨fun _ => none, fun _ => true⟩

/-! Theorems. -/

/-- The request built for a step of the sequence carries the counter value
the step started with. -/
theorem builtReq_id (c : Client) (e : CallEnv) : (builtReq c e).id = c.last_id := by
  rcases e with ⟨m, p, u, so, ro⟩
  cases u <;> rfl

/-- Every step of the sequence, through either entry point and with any
outcome, increments the counter by exactly one. -/
theorem doCall_last_id (c : Client) (e : CallEnv) :
    (doCall c e).2.last_id = c.last_id + 1 := by
  rcases e with ⟨m, p, u, so, ro⟩
  cases u <;> rfl

/-- The ids recorded by a call sequence starting at any counter value form
the contiguous range starting there. -/
theorem runCalls_ids (c : Client) (envs : List CallEnv) :
    (runCalls c envs).map Request.id = List.range' c.last_id envs.length := by
  induction envs generalizing c with
  | nil => rfl
  | cons e es ih =>
    simp only [runCalls, List.map_cons, List.length_cons, List.range'_succ,
      builtReq_id, ih, doCall_last_id]

/-- C1: for every sequence of N calls (via call or call_params) on a single
Client, the request ids assigned are exactly 1, 2, ..., N in call order:
Client.new starts the counter at 1 and build_request fetch-and-increments. -/
theorem claim1_ids_one_to_n (os : UnixOs) (sc : UnixJsonStreamClient) (c : Client)
    (h : Client.new os sc = Except.ok c) (envs : List CallEnv) :
    (runCalls c envs).map Request.id = List.range' 1 envs.length := by
  have hc : c.last_id = 1 := by
    unfold Client.new UnixJsonStreamClient.connect at h
    cases hcr : os.connectRes sc.path <;> rw [hcr] at h
    · injection h with h
      rw [← h]
    · exact absurd h (by simp)
  rw [runCalls_ids, hc]

/-- Witness for C1: three successful calls on a freshly connected client
are assigned ids 1, 2, 3. -/
theorem claim1_witness :
    (runCalls ⟨⟨"/sock", none⟩, 1⟩ [envPing, envPing, envPing]).map Request.id =
      List.range' 1 3 :=
  claim1_ids_one_to_n osAllOk ⟨"/sock", none⟩ ⟨⟨"/sock", none⟩, 1⟩ rfl
    [envPing, envPing, envPing]

/-- C7: a recv whose stream deserializer yields no value before the end
condition (closed, or no bytes within the configured timeout) fails with
Timeout, hence never with Socket and never with Serialize. -/
theorem claim7_recv_timeout (R : Type) (s : UnixJsonStream) :
    s.recv (none : Option (Except JsonError R)) = Except.error Error.Timeout := rfl

/-- C8: the conversion of a JSON decode failure classifies by underlying
cause: an Io-classified failure becomes Socket with the underlying I/O
error, every other classification becomes Serialize. -/
theorem claim8_decode_reclassify (e : JsonError) :
    (e.category = JsonCategory.ioCat → Error.fromJsonError e = Error.Socket e.ioCause) ∧
    (e.category ≠ JsonCategory.ioCat → Error.fromJsonError e = Error.Serialize e) := by
  rcases e with ⟨cat, cause⟩
  cases cat <;> simp [Error.fromJsonError]

/-- Witness for C8: a decode failure from the peer closing mid-value is
reported as Socket, a syntactic decode failure as Serialize. -/
theorem claim8_witness :
    Error.fromJsonError ⟨JsonCategory.ioCat, ⟨"peer closed"⟩⟩ =
      Error.Socket ⟨"peer closed"⟩ ∧
    Error.fromJsonError ⟨JsonCategory.synCat, ⟨"bad json"⟩⟩ =
      Error.Serialize ⟨JsonCategory.synCat, ⟨"bad json"⟩⟩ :=
  ⟨(claim8_decode_reclassify ⟨JsonCategory.ioCat, ⟨"peer closed"⟩⟩).1 rfl,
   (claim8_decode_reclassify ⟨JsonCategory.synCat, ⟨"bad json"⟩⟩).2 (by decide)⟩

/-- C10: a request id is consumed by every call attempt, including failed
ones: both entry points leave the counter one higher whatever the outcome,
and the request built by the next call carries a strictly larger id. -/
theorem claim10_id_consumed (c : Client) (sendOut : Option JsonError)
    (recvOut : Option (Except JsonError (Response String))) (method : String)
    (params : List String) (m2 : String) (p2 : List String) :
    (c.call_params sendOut recvOut method params).2.last_id = c.last_id + 1 ∧
    (c.call sendOut recvOut method).2.last_id = c.last_id + 1 ∧
    ((c.call_params sendOut recvOut method params).2.build_request m2 p2).1.id >
      (c.build_request method params).1.id :=
  ⟨rfl, rfl, Nat.lt_succ_self c.last_id⟩

/-- C2: for every call, a received response with no id fails with
Protocol (id not found in response), and one whose id differs from the
just-sent request's id fails with Protocol (request and response ids do
not match), whatever the response's result and error content. -/
theorem claim2_id_verification (c : Client) (method : String)
    (params : List String) (res : Response String) :
    (res.id = none →
      (c.call_params none (some (Except.ok res)) method params).1 =
        Except.error (Error.Protocol "id not found in response")) ∧
    (∀ j, res.id = some j → j ≠ c.last_id →
      (c.call_params none (some (Except.ok res)) method params).1 =
        Except.error (Error.Protocol "request and response ids do not match")) := by
  constructor
  · intro h
    simp [Client.call_params, Client.build_request, Client.send_request,
      UnixJsonStream.send, UnixJsonStream.recv, h]
  · intro j hj hne
    simp [Client.call_params, Client.build_request, Client.send_request,
      UnixJsonStream.send, UnixJsonStream.recv, hj, hne]

/-- Witness for C2: with the request id at 1, a response carrying a result
and an error but no id yields Protocol, and one with id 2 yields the
mismatch Protocol error rather than Command. -/
theorem claim2_witness :
    ((⟨⟨"/s", none⟩, 1⟩ : Client).call_params none
        (some (Except.ok ⟨some "r", some "boom", none⟩)) "m" ["a"]).1 =
      Except.error (Error.Protocol "id not found in response") ∧
    ((⟨⟨"/s", none⟩, 1⟩ : Client).call_params none
        (some (Except.ok ⟨some "r", some "boom", some 2⟩)) "m" ["a"]).1 =
      Except.error (Error.Protocol "request and response ids do not match") :=
  ⟨(claim2_id_verification ⟨⟨"/s", none⟩, 1⟩ "m" ["a"] ⟨some "r", some "boom", none⟩).1 rfl,
   (claim2_id_verification ⟨⟨"/s", none⟩, 1⟩ "m" ["a"] ⟨some "r", some "boom", some 2⟩).2
     2 rfl (by decide)⟩

/-- C3: for every call whose response id matches, a present error field
makes call_params fail with Command carrying the method, the parameters
joined by a comma and a space, and the error text (call joins its empty
slice as the empty string); with no error field the response is returned. -/
theorem claim3_error_field (c : Client) (method : String) (params : List String)
    (res : Response String) (hid : res.id = some c.last_id) :
    (∀ err, res.error = some err →
      (c.call_params none (some (Except.ok res)) method params).1 =
        Except.error (Error.Command method (String.intercalate ", " params) err)) ∧
    (∀ err, res.error = some err →
      (c.call none (some (Except.ok res)) method).1 =
        Except.error (Error.Command method "" err)) ∧
    (res.error = none →
      (c.call_params none (some (Except.ok res)) method params).1 = Except.ok res) ∧
    (res.error = none →
      (c.call none (some (Except.ok res)) method).1 = Except.ok res) := by
  refine ⟨?_, ?_, ?_, ?_⟩
  · intro err herr
    simp [Client.call_params, Client.build_request, Client.send_request,
      UnixJsonStream.send, UnixJsonStream.recv, hid, herr]
  · intro err herr
    simp [Client.call, Client.build_request, Client.send_request,
      UnixJsonStream.send, UnixJsonStream.recv, hid, herr]
  · intro herr
    simp [Client.call_params, Client.build_request, Client.send_request,
      UnixJsonStream.send, UnixJsonStream.recv, hid, herr]
  · intro herr
    simp [Client.call, Client.build_request, Client.send_request,
      UnixJsonStream.send, UnixJsonStream.recv, hid, herr]

/-- Witness for C3: with matching id 5, an error field yields Command with
the joined parameters, and no error field returns the response as is. -/
theorem claim3_witness :
    ((⟨⟨"/s", none⟩, 5⟩ : Client).call_params none
        (some (Except.ok (⟨none, some "boom", some 5⟩ : Response String)))
        "bond/show" ["b0", "b1"]).1 =
      Except.error (Error.Command "bond/show" "b0, b1" "boom") ∧
    ((⟨⟨"/s", none⟩, 5⟩ : Client).call_params none
        (some (Except.ok (⟨none, none, some 5⟩ : Response String)))
        "bond/show" ["b0", "b1"]).1 =
      Except.ok (⟨none, none, some 5⟩ : Response String) :=
  ⟨(claim3_error_field ⟨⟨"/s", none⟩, 5⟩ "bond/show" ["b0", "b1"]
      ⟨none, some "boom", some 5⟩ rfl).1 "boom" rfl,
   (claim3_error_field ⟨⟨"/s", none⟩, 5⟩ "bond/show" ["b0", "b1"]
      ⟨none, none, some 5⟩ rfl).2.2.1 rfl⟩

/-- C4: find_socket_at fails OvsNotRunning when reading the pid file fails
or its trimmed content is empty; with a non-empty trimmed pid it composes
the control socket path, fails SocketNotFound with that path when it does
not exist, and returns it when it does. -/
theorem claim4_find_socket_at (fs : FileSys) (target rundir : String) :
    (fs.readToString (pathJoin rundir (target ++ ".pid")) = none →
      find_socket_at fs target rundir = Except.error Error.OvsNotRunning) ∧
    (∀ s, fs.readToString (pathJoin rundir (target ++ ".pid")) = some s →
      (rustTrim s = "" →
        find_socket_at fs target rundir = Except.error Error.OvsNotRunning) ∧
      (rustTrim s ≠ "" →
        (fs.pathExists (pathJoin rundir (target ++ "." ++ rustTrim s ++ ".ctl")) = false →
          find_socket_at fs target rundir =
            Except.error (Error.SocketNotFound
              (pathJoin rundir (target ++ "." ++ rustTrim s ++ ".ctl")))) ∧
        (fs.pathExists (pathJoin rundir (target ++ "." ++ rustTrim s ++ ".ctl")) = true →
          find_socket_at fs target rundir =
            Except.ok (pathJoin rundir (target ++ "." ++ rustTrim s ++ ".ctl"))))) := by
  constructor
  · intro h
    simp [find_socket_at, h]
  · intro s hs
    refine ⟨fun ht => ?_, fun ht => ⟨fun hp => ?_, fun hp => ?_⟩⟩
    · simp [find_socket_at, hs, ht]
    · simp [find_socket_at, hs, ht, hp]
    · simp [find_socket_at, hs, ht, hp]

/-- Witness for C4: a missing pid file and a blank pid file both yield
OvsNotRunning; pid 12 without /run/ovs-vswitchd.12.ctl yields
SocketNotFound with that path, and with it the path is returned. -/
theorem claim4_witness :
    find_socket_at fsEmpty "ovs-vswitchd" "/run" = Except.error Error.OvsNotRunning ∧
    find_socket_at fsPidBlank "ovs-vswitchd" "/run" = Except.error Error.OvsNotRunning ∧
    find_socket_at fsPidOnly "ovs-vswitchd" "/run" =
      Except.error (Error.SocketNotFound "/run/ovs-vswitchd.12.ctl") ∧
    find_socket_at fsPidSock "ovs-vswitchd" "/run" =
      Except.ok "/run/ovs-vswitchd.12.ctl" :=
  ⟨(claim4_find_socket_at fsEmpty "ovs-vswitchd" "/run").1 rfl,
   ((claim4_find_socket_at fsPidBlank "ovs-vswitchd" "/run").2 "  " rfl).1 rfl,
   (((claim4_find_socket_at fsPidOnly "ovs-vswitchd" "/run").2 " 12 " rfl).2
     (by decide)).1 rfl,
   (((claim4_find_socket_at fsPidSock "ovs-vswitchd" "/run").2 " 12 " rfl).2
     (by decide)).2 rfl⟩

/-- C5 counterexample: the parsed reply must begin with the fixed prefix
naming ovs-vswitchd, so with another daemon name the input
"daemon (Open vSwitch) 3.2.1" yields the invalid-prefix InvalidResponse,
not (3, 2, 1, ""). -/
theorem claim5_counterexample :
    versionOfResult (some "daemon (Open vSwitch) 3.2.1") =
      Except.error (Error.OvsInvalidResponse "version"
        "daemon (Open vSwitch) 3.2.1" "invalid prefix") ∧
    ¬ versionOfResult (some "daemon (Open vSwitch) 3.2.1") =
        Except.ok (3, 2, 1, "") :=
  ⟨rfl, fun h => Except.noConfusion h⟩

/-- C5 amended: version parsing strips the fixed prefix
"ovs-vswitchd (Open vSwitch) ": that prefix followed by 3.2.1 yields
(3, 2, 1, ""), by 3.2.1-4 yields (3, 2, 1, "4"), any other daemon name
means the prefix is missing and yields InvalidResponse, and a non-numeric
component yields InvalidResponse naming the component. -/
theorem claim5_amended_version :
    versionOfResult (some "ovs-vswitchd (Open vSwitch) 3.2.1") =
      Except.ok (3, 2, 1, "") ∧
    versionOfResult (some "ovs-vswitchd (Open vSwitch) 3.2.1-4") =
      Except.ok (3, 2, 1, "4") ∧
    versionOfResult (some "daemon (Open vSwitch) 3.2.1") =
      Except.error (Error.OvsInvalidResponse "version"
        "daemon (Open vSwitch) 3.2.1" "invalid prefix") ∧
    versionOfResult (some "ovs-vswitchd (Open vSwitch) 3.x.1") =
      Except.error (Error.OvsInvalidResponse "version"
        "ovs-vswitchd (Open vSwitch) 3.x.1"
        "can't parse x: invalid digit found in string") :=
  ⟨rfl, rfl, rfl, rfl⟩

/-- C6: list-commands processing discards the first line as a header and
splits each later line at its first whitespace with both halves trimmed:
the specified input yields exactly the two pairs in order, and a missing
result yields InvalidResponse. -/
theorem claim6_list_commands :
    listCommandsOfResult (some "Commands:\nlist-commands \nbond/list [dp]\n") =
      Except.ok [("list-commands", ""), ("bond/list", "[dp]")] ∧
    listCommandsOfResult none =
      Except.error (Error.OvsInvalidResponse "list-commands" ""
        "should not be empty") :=
  ⟨rfl, rfl⟩

/-- C9: constructing the facade from an explicit socket path fails
SocketNotFound immediately when the path does not exist; when it exists,
an unspecified timeout configures the connection with one second and an
explicit timeout is used unchanged. -/
theorem claim9_unix_ctor (fs : FileSys) (os : UnixOs) (path : String)
    (timeout : Option Nat) :
    (fs.pathExists path = false →
      OvsUnixCtl.unix fs os path timeout =
        Except.error (Error.SocketNotFound path)) ∧
    (∀ c, OvsUnixCtl.unix fs os path none = Except.ok c →
      c.stream.timeout = some (durationFromSecs 1)) ∧
    (∀ t c, OvsUnixCtl.unix fs os path (some t) = Except.ok c →
      c.stream.timeout = some t) := by
  refine ⟨fun h => by simp [OvsUnixCtl.unix, h], fun c h => ?_, fun t c h => ?_⟩
  · cases hpe : fs.pathExists path with
    | false => simp [OvsUnixCtl.unix, hpe] at h
    | true =>
      cases hcr : os.connectRes path with
      | some e =>
        simp [OvsUnixCtl.unix, Client.unix, Client.new, UnixJsonStreamClient.connect,
          UnixJsonStreamClient.new, UnixJsonStreamClient.setTimeout, hpe, hcr] at h
      | none =>
        simp only [OvsUnixCtl.unix, Client.unix, Client.new,
          UnixJsonStreamClient.connect, UnixJsonStreamClient.new,
          UnixJsonStreamClient.setTimeout, hpe, hcr, Bool.true_eq_false,
          if_false, ite_false] at h
        injection h with h
        rw [← h]
  · cases hpe : fs.pathExists path with
    | false => simp [OvsUnixCtl.unix, hpe] at h
    | true =>
      cases hcr : os.connectRes path with
      | some e =>
        simp [OvsUnixCtl.unix, Client.unix, Client.new, UnixJsonStreamClient.connect,
          UnixJsonStreamClient.new, UnixJsonStreamClient.setTimeout, hpe, hcr] at h
      | none =>
        simp only [OvsUnixCtl.unix, Client.unix, Client.new,
          UnixJsonStreamClient.connect, UnixJsonStreamClient.new,
          UnixJsonStreamClient.setTimeout, hpe, hcr, Bool.true_eq_false,
          if_false, ite_false] at h
        injection h with h
        rw [← h]

/-- Witness for C9: a missing path fails SocketNotFound; with an existing
path, an unspecified timeout yields a 1000 millisecond stream timeout and
an explicit 77 millisecond timeout is kept. -/
theorem claim9_witness :
    OvsUnixCtl.unix fsEmpty osAllOk "/x.ctl" none =
      Except.error (Error.SocketNotFound "/x.ctl") ∧
    (⟨⟨"/s.ctl", some 1000⟩, 1⟩ : Client).stream.timeout =
      some (durationFromSecs 1) ∧
    (⟨⟨"/s.ctl", some 77⟩, 1⟩ : Client).stream.timeout = some 77 :=
  ⟨(claim9_unix_ctor fsEmpty osAllOk "/x.ctl" none).1 rfl,
   (claim9_unix_ctor fsAllExist osAllOk "/s.ctl" none).2.1
     ⟨⟨"/s.ctl", some 1000⟩, 1⟩ rfl,
   (claim9_unix_ctor fsAllExist osAllOk "/s.ctl" (some 77)).2.2 77
     ⟨⟨"/s.ctl", some 77⟩, 1⟩ rfl⟩

end Ovs
